import Mathlib

/-!
Shallow embedding of the tesla-mcp token manager, vehicle cache and
tool/resource adapter (src/src/teslaService.ts and the MCP server module),
with theorems checking the specification's claims against it.

Conventions of the embedding:
* JavaScript numbers used as millisecond instants are modelled as `Int`;
  a `NaN` arising from arithmetic on a missing field is modelled as `none`
  in an `Option Int` (every JS comparison against `NaN` is false, which the
  `tokenExpired` predicate reproduces).
* A nullable / possibly-undefined JS value is an `Option`.
* An `await`ed remote call is a pure input of type `Except e a`: `.error`
  models the promise rejecting (network failure or non-2xx status),
  `.ok` models a 2xx response payload.
* Thrown exceptions are `Except.error` results; handlers that mutate state
  return the post-call state explicitly.
-/

set_option autoImplicit false

/-- A vehicle record as declared in teslaService.ts (the open-ended extra
telemetry fields are not interpreted by the system and are omitted). -/
structure Vehicle where
  id : String
  vin : String
  display_name : String
  state : String
  vehicle_id : Int
deriving DecidableEq, Repr

/-- Payload of a 2xx response from the auth endpoint; either field may be
missing from a malformed response. -/
structure AuthResponse where
  access_token : Option String
  expires_in : Option Int
deriving DecidableEq, Repr

/-- The TeslaService token fields: `accessToken` (null initially) and
`tokenExpiration` (0 initially; `none` models a NaN expiry produced by a
response lacking `expires_in`). -/
structure TokenState where
  accessToken : Option String
  tokenExpiration : Option Int
deriving DecidableEq, Repr

/-- TeslaService constructor state: `accessToken = null`, `tokenExpiration = 0`. -/
def initialTokenState : TokenState :=
  { accessToken := none, tokenExpiration := some 0 }

/-- `Date.now() >= this.tokenExpiration`, with the JS rule that a comparison
against NaN is false. -/
def tokenExpired (now : Int) (s : TokenState) : Bool :=
  match s.tokenExpiration with
  | none => false
  | some e => decide (now ≥ e)

/-- The message wrapping applied by the catch block of `authorize`. -/
def authFailMsg (detail : String) : String :=
  "Failed to authorize with Tesla API: " ++ detail

namespace TeslaService

/-- `TeslaService.authorize`. Credentials are the three environment
variables (absent = `none`); `call` is the outcome of the POST to the auth
endpoint. Returns the thrown error or success, together with the token
state after the call: the state is mutated only when the POST resolves,
and then it is overwritten with whatever fields the response carried. -/
def authorize (clientId clientSecret refreshToken : Option String) (now : Int)
    (call : Except String AuthResponse) (s : TokenState) :
    Except String Unit × TokenState :=
  match clientId with
  | none => (Except.error (authFailMsg "TESLA_CLIENT_ID is not set in environment variables"), s)
  | some _ =>
    match clientSecret with
    | none => (Except.error (authFailMsg "TESLA_CLIENT_SECRET is not set in environment variables"), s)
    | some _ =>
      match refreshToken with
      | none => (Except.error (authFailMsg "TESLA_REFRESH_TOKEN is not set in environment variables"), s)
      | some _ =>
        match call with
        | Except.error e => (Except.error (authFailMsg e), s)
        | Except.ok r =>
          (Except.ok (),
           { accessToken := r.access_token,
             tokenExpiration := r.expires_in.map (fun ei => now + ei * 1000) })

/-- `TeslaService.getAccessToken`: refreshes via `authorize` when no token
is held or the held token is expired, then returns the held token or throws
`Could not obtain access token`. The third component records whether
`authorize` was invoked. -/
def getAccessToken (clientId clientSecret refreshToken : Option String) (now : Int)
    (call : Except String AuthResponse) (s : TokenState) :
    Except String String × TokenState × Bool :=
  if s.accessToken.isNone || tokenExpired now s then
    match authorize clientId clientSecret refreshToken now call s with
    | (Except.error e, s1) => (Except.error e, s1, true)
    | (Except.ok _, s1) =>
      match s1.accessToken with
      | none => (Except.error "Could not obtain access token", s1, true)
      | some t => (Except.ok t, s1, true)
  else
    match s.accessToken with
    | none => (Except.error "Could not obtain access token", s, false)
    | some t => (Except.ok t, s, false)

end TeslaService

/-- A synthetic environment response is well formed when, if the auth POST
resolves, its payload carries an access token and a positive validity
duration in seconds. -/
def wellFormedCall : Except String AuthResponse → Bool
  | Except.error _ => true
  | Except.ok r =>
    r.access_token.isSome &&
      (match r.expires_in with
       | none => false
       | some ei => decide (0 < ei))

/-- Run a sequence of `getAccessToken` calls under a synthetic clock: each
event is an instant paired with the auth-endpoint outcome that a refresh at
that instant would observe. Collects, for every call that returned a token,
the instant of return and the token state at that moment. -/
def runCalls (clientId clientSecret refreshToken : Option String) (s : TokenState) :
    List (Int × Except String AuthResponse) → List (Int × String × TokenState)
  | [] => []
  | (now, call) :: rest =>
    match TeslaService.getAccessToken clientId clientSecret refreshToken now call s with
    | (Except.ok t, s1, _) => (now, t, s1) :: runCalls clientId clientSecret refreshToken s1 rest
    | (Except.error _, s1, _) => runCalls clientId clientSecret refreshToken s1 rest

/-- Status and body of a rejected (non-2xx) HTTP response; the service
discards both, which is what the claims about `ApiError` are checked
against. -/
structure HttpError where
  status : Int
  body : String
deriving DecidableEq, Repr

namespace TeslaService

/-- `TeslaService.getVehicles`: awaits `getAccessToken` (its error
propagates raw), then inside a try block checks `isRegistered` locally,
performs the GET, and returns `response.data.response || []`; every
exception of the try block is replaced by `Failed to fetch vehicles`.
`listCall` is the outcome of the GET: `.ok none` is a 2xx response without
a `response` field. The second component records whether the list endpoint
was called. -/
def getVehicles (isRegistered : Bool) (tokenResult : Except String String)
    (listCall : Except HttpError (Option (List Vehicle))) :
    Except String (List Vehicle) × Bool :=
  match tokenResult with
  | Except.error e => (Except.error e, false)
  | Except.ok _ =>
    if !isRegistered then
      (Except.error "Failed to fetch vehicles", false)
    else
      match listCall with
      | Except.error _ => (Except.error "Failed to fetch vehicles", true)
      | Except.ok none => (Except.ok [], true)
      | Except.ok (some vs) => (Except.ok vs, true)

/-- `TeslaService.wakeUp vehicleId`: awaits `getAccessToken` (error
propagates raw), checks registration locally, then POSTs to
`/api/1/vehicles/vehicleId/wake_up` and returns `response.data.response`
(`none` when that field is missing); any exception of the try block is
rewrapped as `Failed to wake up vehicle: ...`. The second component is the
path parameter of the POST when one was issued. -/
def wakeUp (vehicleId : String) (isRegistered : Bool)
    (tokenResult : Except String String)
    (wakeCall : Except String (Option Vehicle)) :
    Except String (Option Vehicle) × Option String :=
  match tokenResult with
  | Except.error e => (Except.error e, none)
  | Except.ok _ =>
    if !isRegistered then
      (Except.error "Failed to wake up vehicle: Application is not registered with Tesla API. Run \"pnpm register\" to complete the registration process", none)
    else
      match wakeCall with
      | Except.error m => (Except.error ("Failed to wake up vehicle: " ++ m), some vehicleId)
      | Except.ok r => (Except.ok r, some vehicleId)

end TeslaService

/-- The MCP server's module-level vehicle cache: `vehiclesCache` and
`lastVehicleFetch`. -/
structure CacheState where
  vehiclesCache : List Vehicle
  lastVehicleFetch : Int
deriving DecidableEq, Repr

/-- `CACHE_TTL = 60000` milliseconds. -/
def CACHE_TTL : Int := 60000

/-- The refresh condition of the cache read:
`forceRefresh || vehiclesCache.length === 0 || (now - lastVehicleFetch) > CACHE_TTL`. -/
def needsFetch (forceRefresh : Bool) (now : Int) (s : CacheState) : Bool :=
  forceRefresh || s.vehiclesCache.length == 0 ||
    decide (now - s.lastVehicleFetch > CACHE_TTL)

/-- The MCP server's `getVehicles(forceRefresh)` cache read. `fetch` is the
outcome of `teslaService.getVehicles()` when the refresh condition makes
the read call it. Returns the list handed to the caller, the cache state
afterwards, and the number of remote list calls made: on a successful
fetch both cache fields are replaced; on a failed fetch the error is
swallowed, nothing is updated, and an empty cache yields `[]`. -/
def getVehicles (forceRefresh : Bool) (now : Int)
    (fetch : Except String (List Vehicle)) (s : CacheState) :
    List Vehicle × CacheState × Nat :=
  if needsFetch forceRefresh now s then
    match fetch with
    | Except.ok vs => (vs, { vehiclesCache := vs, lastVehicleFetch := now }, 1)
    | Except.error _ =>
      if s.vehiclesCache.length == 0 then ([], s, 1)
      else (s.vehiclesCache, s, 1)
  else
    (s.vehiclesCache, s, 0)

/-- `String(v.id) === t || String(v.vehicle_id) === t || String(v.vin) === t`,
the match predicate of the wake_up tool handler. -/
def matchesToken (tok : String) (v : Vehicle) : Bool :=
  v.id == tok || toString v.vehicle_id == tok || v.vin == tok

/-- `vehicles.find(...)` of the wake_up handler. -/
def resolveVehicle (tok : String) (vehicles : List Vehicle) : Option Vehicle :=
  vehicles.find? (matchesToken tok)

/-- `v.display_name || alt` (JS falsy test on the display name). -/
def displayNameOr (v : Vehicle) (alt : String) : String :=
  if v.display_name == "" then alt else v.display_name

/-- The tool result text of a completed wake call: success text with the
reported post-call state, or the failure text when the response carried no
vehicle. -/
def wakeResultText (v : Vehicle) : Option Vehicle → String
  | some r => "Successfully woke up " ++ displayNameOr v "your Tesla" ++ " (state: " ++ r.state ++ ")"
  | none => "Failed to wake up " ++ displayNameOr v "your Tesla"

/-- The `case "wake_up"` tool handler: resolves the user token against the
already-read vehicle list, throws `Vehicle ... not found` when nothing
matches, otherwise calls `teslaService.wakeUp` with the raw user token and
rewraps its error. The second component is the path parameter of the
remote wake POST (`none` when no wake request was issued). -/
def wakeUpTool (tok : String) (vehicles : List Vehicle) (isRegistered : Bool)
    (tokenResult : Except String String)
    (wakeCall : Except String (Option Vehicle)) :
    Except String String × Option String :=
  match resolveVehicle tok vehicles with
  | none => (Except.error ("Vehicle " ++ tok ++ " not found"), none)
  | some v =>
    match TeslaService.wakeUp tok isRegistered tokenResult wakeCall with
    | (Except.error m, p) => (Except.error ("Failed to wake up vehicle: " ++ m), p)
    | (Except.ok r, p) => (Except.ok (wakeResultText v r), p)

/-- A resource descriptor as produced by the ListResources handler. -/
structure ResourceDescriptor where
  uri : String
  mimeType : String
  name : String
  description : String
deriving DecidableEq, Repr

/-- The descriptor built for one vehicle by the ListResources handler. -/
def vehicleResource (v : Vehicle) : ResourceDescriptor :=
  { uri := "tesla://" ++ v.id
    mimeType := "application/json"
    name := displayNameOr v ("Tesla (" ++ v.vin ++ ")")
    description := "Tesla vehicle: " ++ displayNameOr v "Unknown" ++ " (VIN: " ++ v.vin ++ ")" }

/-- The ListResources handler: a plain (non-forced) cache read followed by
a map to descriptors. Returns the descriptors, the cache state afterwards
and the number of remote list calls made. -/
def listResources (now : Int) (fetch : Except String (List Vehicle)) (s : CacheState) :
    List ResourceDescriptor × CacheState × Nat :=
  match getVehicles false now fetch s with
  | (vs, s1, n) => (vs.map vehicleResource, s1, n)

/-- The per-vehicle block of the debug_vehicles tool text. -/
def debugVehicleText (v : Vehicle) : String :=
  "Vehicle: " ++ displayNameOr v "Tesla" ++ "\n- id: " ++ v.id ++
    "\n- vehicle_id: " ++ toString v.vehicle_id ++ "\n- vin: " ++ v.vin ++
    "\n- state: " ++ v.state

/-- The full text returned by the debug_vehicles tool for a vehicle list. -/
def debugVehiclesText (vehicles : List Vehicle) : String :=
  if vehicles.length == 0 then
    "No vehicles found. Make sure your Tesla account is properly connected."
  else
    "Found " ++ toString vehicles.length ++ " vehicles:\n\n" ++
      String.intercalate "\n\n" (vehicles.map debugVehicleText)

/-- The `case "debug_vehicles"` tool handler: `await getVehicles()` (a
plain, non-forced cache read) followed by pure text formatting. Returns
the text, the cache state afterwards and the number of remote list calls
made. -/
def debugVehiclesTool (now : Int) (fetch : Except String (List Vehicle)) (s : CacheState) :
    String × CacheState × Nat :=
  match getVehicles false now fetch s with
  | (vs, s1, n) => (debugVehiclesText vs, s1, n)

/-- Names of the three tools advertised by the ListTools handler. -/
def toolNames : List String := ["wake_up", "refresh_vehicles", "debug_vehicles"]

/-- The ListTools handler: a plain cache read; an empty vehicle list yields
an empty tool list, otherwise the three tools are advertised. -/
def listTools (now : Int) (fetch : Except String (List Vehicle)) (s : CacheState) :
    List String × CacheState × Nat :=
  match getVehicles false now fetch s with
  | (vs, s1, n) => ((if vs.length == 0 then [] else toolNames), s1, n)

/-- A concrete vehicle used by witnesses and counterexamples. -/
def sampleVehicle : Vehicle :=
  { id := "1", vin := "5YJSA1E14HF000001", display_name := "Car",
    state := "online", vehicle_id := 12345 }

/-- Whether an `Except` result is a success. -/
def isOkResult {ε α : Type} : Except ε α → Bool
  | Except.error _ => false
  | Except.ok _ => true

/-! ### Helper lemmas -/

lemma authorize_cases (cId cS rT : Option String) (now : Int)
    (call : Except String AuthResponse) (s : TokenState) :
    (∃ e, TeslaService.authorize cId cS rT now call s = (Except.error e, s))
    ∨ (∃ r, call = Except.ok r ∧
        TeslaService.authorize cId cS rT now call s =
          (Except.ok (), { accessToken := r.access_token,
                           tokenExpiration := r.expires_in.map (fun ei => now + ei * 1000) })) := by
  cases cId <;> cases cS <;> cases rT <;> cases call <;> simp [TeslaService.authorize]

lemma getAccessToken_step (cId cS rT : Option String) (now : Int)
    (call : Except String AuthResponse) (s : TokenState)
    (hwf : wellFormedCall call = true) (hs : s.tokenExpiration.isSome = true) :
    (TeslaService.getAccessToken cId cS rT now call s).2.1.tokenExpiration.isSome = true
    ∧ (∀ t, (TeslaService.getAccessToken cId cS rT now call s).1 = Except.ok t →
        ∃ exp, (TeslaService.getAccessToken cId cS rT now call s).2.1.tokenExpiration = some exp
          ∧ now < exp) := by
  unfold TeslaService.getAccessToken
  by_cases hr : (s.accessToken.isNone || tokenExpired now s) = true
  · rcases authorize_cases cId cS rT now call s with ⟨e, heq⟩ | ⟨r, hc, heq⟩
    · simp [hr, heq, hs]
    · subst hc
      obtain ⟨rat, rei⟩ := r
      cases rat with
      | none => simp [wellFormedCall] at hwf
      | some tk =>
        cases rei with
        | none => simp [wellFormedCall] at hwf
        | some ei =>
          simp [wellFormedCall] at hwf
          simp [hr, heq]
          omega
  · simp only [Bool.not_eq_true] at hr
    rw [if_neg (by simp [hr])]
    have h1 : s.accessToken.isNone = false := by
      cases h : s.accessToken.isNone
      · rfl
      · simp [h] at hr
    have h2 : tokenExpired now s = false := by
      cases h : tokenExpired now s
      · rfl
      · simp [h] at hr
    obtain ⟨atok, texp⟩ := s
    cases atok with
    | none => simp at h1
    | some t0 =>
      cases texp with
      | none => simp at hs
      | some e0 =>
        simp [tokenExpired] at h2
        simp
        omega

lemma getAccessToken_flag (cId cS rT : Option String) (now : Int)
    (call : Except String AuthResponse) (s : TokenState) :
    (TeslaService.getAccessToken cId cS rT now call s).2.2
      = (s.accessToken.isNone || tokenExpired now s) := by
  unfold TeslaService.getAccessToken
  by_cases hr : (s.accessToken.isNone || tokenExpired now s) = true
  · rcases authorize_cases cId cS rT now call s with ⟨e, heq⟩ | ⟨r, hc, heq⟩ <;>
      · simp [hr, heq]
        try split <;> simp [hr]
  · simp only [Bool.not_eq_true] at hr
    rw [if_neg (by simp [hr])]
    split <;> simp [hr]

lemma runCalls_unexpired (cId cS rT : Option String)
    (events : List (Int × Except String AuthResponse)) :
    ∀ s : TokenState, s.tokenExpiration.isSome = true →
      (∀ e ∈ events, wellFormedCall e.2 = true) →
      ∀ x ∈ runCalls cId cS rT s events,
        ∃ exp, x.2.2.tokenExpiration = some exp ∧ x.1 < exp := by
  induction events with
  | nil =>
    intro s _ _ x hx
    simp [runCalls] at hx
  | cons ev rest ih =>
    intro s hs hwf x hx
    obtain ⟨now, call⟩ := ev
    have hwf0 : wellFormedCall call = true := hwf (now, call) (List.mem_cons_self _ _)
    have hstep := getAccessToken_step cId cS rT now call s hwf0 hs
    unfold runCalls at hx
    cases hg : (TeslaService.getAccessToken cId cS rT now call s) with
    | mk r1 p =>
      obtain ⟨s1, b⟩ := p
      rw [hg] at hx hstep
      cases r1 with
      | ok t =>
        simp at hx
        rcases hx with hx | hx
        · subst hx
          exact hstep.2 t rfl
        · exact ih s1 hstep.1 (fun e he => hwf e (List.mem_cons_of_mem _ he)) x hx
      | error e =>
        simp at hx
        exact ih s1 hstep.1 (fun e he => hwf e (List.mem_cons_of_mem _ he)) x hx

/-! ### Claims -/

/-- C1: over any sequence of `getAccessToken` calls under a synthetic clock
(each auth-endpoint response, when it resolves, carrying an access token
with a positive validity duration), every call that returns a token leaves
an expiry instant strictly after the instant of return — no returned token
has an expiry instant at or before the instant it was returned; and the
refresh is performed exactly when no token is held or the held token's
expiry instant is at or before the current instant. -/
theorem c1_token_unexpired_at_return (cId cS rT : Option String)
    (events : List (Int × Except String AuthResponse))
    (hwf : ∀ e ∈ events, wellFormedCall e.2 = true)
    (x : Int × String × TokenState)
    (hx : x ∈ runCalls cId cS rT initialTokenState events)
    (now : Int) (call : Except String AuthResponse) (s : TokenState) :
    (∃ exp, x.2.2.tokenExpiration = some exp ∧ x.1 < exp)
    ∧ (TeslaService.getAccessToken cId cS rT now call s).2.2
        = (s.accessToken.isNone || tokenExpired now s) :=
  ⟨runCalls_unexpired cId cS rT events initialTokenState rfl hwf x hx,
   getAccessToken_flag cId cS rT now call s⟩

/-- Witness for C1: concrete two-call trace (expired initial state, then a
fresh-token reuse), checking the collected return and the refresh flag. -/
theorem c1_witness :
    (∃ exp, ({ accessToken := some "tokA", tokenExpiration := some 3600000 } : TokenState).tokenExpiration
        = some exp ∧ (0 : Int) < exp)
    ∧ (TeslaService.getAccessToken (some "i") (some "s") (some "r") 0
        (Except.ok { access_token := some "tokA", expires_in := some 3600 })
        initialTokenState).2.2
      = (initialTokenState.accessToken.isNone || tokenExpired 0 initialTokenState) :=
  c1_token_unexpired_at_return (some "i") (some "s") (some "r")
    [(0, Except.ok { access_token := some "tokA", expires_in := some 3600 })]
    (by decide)
    (0, "tokA", { accessToken := some "tokA", tokenExpiration := some 3600000 })
    (by decide)
    0 (Except.ok { access_token := some "tokA", expires_in := some 3600 }) initialTokenState

/-- C2: the cache read performs the remote list call exactly when
forceRefresh is set, the cache is empty, or the cache age strictly exceeds
60 seconds; otherwise it returns the cached vehicles unchanged with no
network call; in the refresh case it makes exactly one call and on success
replaces the cache contents and fetch-instant. -/
theorem c2_cache_read_policy (f : Bool) (now : Int)
    (fetch : Except String (List Vehicle)) (vs : List Vehicle) (s : CacheState) :
    ((getVehicles f now fetch s).2.2 = if needsFetch f now s then 1 else 0)
    ∧ (getVehicles f now (Except.ok vs) s =
        if needsFetch f now s then (vs, { vehiclesCache := vs, lastVehicleFetch := now }, 1)
        else (s.vehiclesCache, s, 0))
    ∧ (needsFetch f now s
        = (f || decide (s.vehiclesCache = []) || decide (now - s.lastVehicleFetch > 60000))) := by
  refine ⟨?_, ?_, ?_⟩
  · by_cases h : needsFetch f now s = true
    · cases fetch with
      | error e2 =>
        simp [getVehicles, h]
        split <;> rfl
      | ok vs2 => simp [getVehicles, h]
    · simp only [Bool.not_eq_true] at h
      simp [getVehicles, h]
  · by_cases h : needsFetch f now s = true
    · simp [getVehicles, h]
    · simp only [Bool.not_eq_true] at h
      simp [getVehicles, h]
  · cases hc : s.vehiclesCache <;> simp [needsFetch, CACHE_TTL, hc]

/-- C3: when the remote list call fails during a cache read that attempted
it, a non-empty cache is served unchanged — no error propagates, the
fetch-instant is not updated, and a repeat call at the same instant
attempts the network again — while an empty cache yields an empty list
rather than an error. -/
theorem c3_failed_fetch_serves_stale (f : Bool) (now : Int) (e : String) (s : CacheState)
    (hcall : needsFetch f now s = true) :
    (s.vehiclesCache ≠ [] →
        getVehicles f now (Except.error e) s = (s.vehiclesCache, s, 1)
        ∧ (getVehicles f now (Except.error e)
             ((getVehicles f now (Except.error e) s).2.1)).2.2 = 1)
    ∧ (s.vehiclesCache = [] → getVehicles f now (Except.error e) s = ([], s, 1)) := by
  constructor
  · intro hne
    have hlen : (s.vehiclesCache.length == 0) = false := by
      cases hc : s.vehiclesCache
      · exact absurd hc hne
      · simp [hc]
    constructor
    · simp [getVehicles, hcall, hlen]
    · simp [getVehicles, hcall, hlen]
  · intro hemp
    simp [getVehicles, hcall, hemp]

/-- Witness for C3: stale non-empty cache, failing fetch at T+61s. -/
theorem c3_witness :
    getVehicles false 61000 (Except.error "boom")
        { vehiclesCache := [sampleVehicle], lastVehicleFetch := 0 }
      = ([sampleVehicle], { vehiclesCache := [sampleVehicle], lastVehicleFetch := 0 }, 1)
    ∧ (getVehicles false 61000 (Except.error "boom")
        ((getVehicles false 61000 (Except.error "boom")
            { vehiclesCache := [sampleVehicle], lastVehicleFetch := 0 }).2.1)).2.2 = 1 :=
  (c3_failed_fetch_serves_stale false 61000 "boom"
      { vehiclesCache := [sampleVehicle], lastVehicleFetch := 0 } (by decide)).1 (by decide)

/-- C4 counterexample: a 2xx auth response lacking both `access_token` and
`expires_in` is a malformed response, yet `authorize` does not fail — and
the previously held token and expiry are overwritten rather than left
untouched. -/
theorem c4_counterexample :
    TeslaService.authorize (some "id") (some "secret") (some "rt") 1000
        (Except.ok { access_token := none, expires_in := none })
        { accessToken := some "oldtok", tokenExpiration := some 999999 }
      = (Except.ok (), { accessToken := none, tokenExpiration := none })
    ∧ ({ accessToken := none, tokenExpiration := none } : TokenState)
        ≠ { accessToken := some "oldtok", tokenExpiration := some 999999 } := by
  exact ⟨rfl, by simp⟩

/-- C4 amended: `authorize` fails (with the AuthError-style wrapped
message) exactly when the client identifier, client secret, or refresh
token is absent, or the remote token-exchange call itself fails (network
or non-2xx); in those failure cases the previously held token state is
untouched. A 2xx response lacking `access_token`/`expires_in` is not a
failure of `authorize`: it is accepted and overwrites the held state. -/
theorem c4_amended_auth_failures (cId cS rT : Option String) (now : Int)
    (call : Except String AuthResponse) (s : TokenState) :
    (isOkResult (TeslaService.authorize cId cS rT now call s).1
        = (cId.isSome && cS.isSome && rT.isSome && isOkResult call))
    ∧ (isOkResult (TeslaService.authorize cId cS rT now call s).1 = false →
        (TeslaService.authorize cId cS rT now call s).2 = s) := by
  cases cId <;> cases cS <;> cases rT <;> cases call <;>
    simp [TeslaService.authorize, isOkResult]

/-- Witness for C4 amended: a missing client identifier fails and leaves
the held token state untouched. -/
theorem c4_amended_witness :
    isOkResult (TeslaService.authorize none (some "sec") (some "rt") 0
        (Except.ok { access_token := some "t", expires_in := some 10 })
        { accessToken := some "old", tokenExpiration := some 5 }).1 = false
    ∧ (TeslaService.authorize none (some "sec") (some "rt") 0
        (Except.ok { access_token := some "t", expires_in := some 10 })
        { accessToken := some "old", tokenExpiration := some 5 }).2
      = { accessToken := some "old", tokenExpiration := some 5 } := by
  have h := c4_amended_auth_failures none (some "sec") (some "rt") 0
      (Except.ok { access_token := some "t", expires_in := some 10 })
      { accessToken := some "old", tokenExpiration := some 5 }
  exact ⟨by decide, h.2 (by decide)⟩

/-- C5 counterexample: with registration absent (and vehicles available
from the remote), the list operation fails with the same generic constant
message that a non-2xx response produces — no distinct registration error
is surfaced, and no status or body is carried. -/
theorem c5_counterexample :
    TeslaService.getVehicles false (Except.ok "tok") (Except.ok (some [sampleVehicle]))
      = (Except.error "Failed to fetch vehicles", false)
    ∧ TeslaService.getVehicles true (Except.ok "tok")
        (Except.error { status := 500, body := "server error" })
      = (Except.error "Failed to fetch vehicles", true) := by
  exact ⟨rfl, rfl⟩

/-- C5 amended: the list operation returns the response's vehicle array,
or an empty list when the response carries none; the registration check is
local and performed before the remote list call, so no list call is
attempted when unregistered — but every failure (unregistered or non-2xx)
is surfaced as the same generic `Failed to fetch vehicles` error, without
status or body and with no distinct registration error. -/
theorem c5_amended_service_list (t : String) (vs : List Vehicle) (err : HttpError)
    (lc : Except HttpError (Option (List Vehicle))) :
    TeslaService.getVehicles true (Except.ok t) (Except.ok (some vs)) = (Except.ok vs, true)
    ∧ TeslaService.getVehicles true (Except.ok t) (Except.ok none) = (Except.ok [], true)
    ∧ TeslaService.getVehicles false (Except.ok t) lc
        = (Except.error "Failed to fetch vehicles", false)
    ∧ TeslaService.getVehicles true (Except.ok t) (Except.error err)
        = (Except.error "Failed to fetch vehicles", true) := by
  refine ⟨rfl, rfl, ?_, rfl⟩
  cases lc <;> rfl

/-- C6: the wake_up tool resolves the user token against the cached
vehicles by comparing it to a vehicle's id, stringified numeric
vehicle_id, and VIN; a cached vehicle is found under any of those three
strings (here: the singleton-cache instance), and when no cached vehicle
matches on any of the three fields the tool fails with the not-found error
and issues no remote wake request. -/
theorem c6_wake_resolution (tok : String) (vehicles : List Vehicle) (reg : Bool)
    (tr : Except String String) (wc : Except String (Option Vehicle)) (v : Vehicle) :
    ((∀ u ∈ vehicles, matchesToken tok u = false) →
        wakeUpTool tok vehicles reg tr wc
          = (Except.error ("Vehicle " ++ tok ++ " not found"), none))
    ∧ (resolveVehicle tok vehicles = some v → v ∈ vehicles ∧ matchesToken tok v = true)
    ∧ (vehicles = [v] →
        resolveVehicle v.id vehicles = some v
        ∧ resolveVehicle (toString v.vehicle_id) vehicles = some v
        ∧ resolveVehicle v.vin vehicles = some v) := by
  refine ⟨?_, ?_, ?_⟩
  · intro hall
    have hnone : resolveVehicle tok vehicles = none := by
      unfold resolveVehicle
      rw [List.find?_eq_none]
      intro u hu
      simp [hall u hu]
    simp [wakeUpTool, hnone]
  · intro hfind
    unfold resolveVehicle at hfind
    exact ⟨List.mem_of_find?_eq_some hfind, List.find?_some hfind⟩
  · intro hveq
    subst hveq
    refine ⟨?_, ?_, ?_⟩ <;> simp [resolveVehicle, List.find?, matchesToken]

/-- Witness for C6: the concrete vehicle with id "1", vehicle_id 12345 and
its VIN is found under all three strings; an unrelated token fails with
the not-found error and no wake request. -/
theorem c6_witness :
    wakeUpTool "unrelated" [sampleVehicle] true (Except.ok "t") (Except.ok none)
      = (Except.error ("Vehicle " ++ "unrelated" ++ " not found"), none)
    ∧ (sampleVehicle ∈ [sampleVehicle] ∧ matchesToken "1" sampleVehicle = true)
    ∧ (resolveVehicle "1" [sampleVehicle] = some sampleVehicle
        ∧ resolveVehicle "12345" [sampleVehicle] = some sampleVehicle
        ∧ resolveVehicle "5YJSA1E14HF000001" [sampleVehicle] = some sampleVehicle) := by
  have h := c6_wake_resolution "unrelated" [sampleVehicle] true (Except.ok "t")
      (Except.ok none) sampleVehicle
  have h2 := c6_wake_resolution "1" [sampleVehicle] true (Except.ok "t")
      (Except.ok none) sampleVehicle
  exact ⟨h.1 (by decide), h2.2.1 (by decide), h.2.2 rfl⟩

/-- C7 counterexample: the user supplies the numeric vehicle_id form
"12345"; the cache resolves it to the vehicle whose id is "1", yet the
path parameter of the remote wake request is "12345", not the resolved
vehicle's id. -/
theorem c7_counterexample :
    resolveVehicle "12345" [sampleVehicle] = some sampleVehicle
    ∧ (wakeUpTool "12345" [sampleVehicle] true (Except.ok "tok")
        (Except.ok (some sampleVehicle))).2 = some "12345"
    ∧ sampleVehicle.id = "1"
    ∧ ("12345" : String) ≠ "1" := by
  refine ⟨by decide, rfl, rfl, by decide⟩

/-- C7 amended: the Adapter validates the user-supplied token against the
cache but performs no translation — whenever a remote wake request is
issued, its path parameter is the user-supplied token verbatim, which
coincides with the resolved vehicle's id only when the id form was
supplied. -/
theorem c7_amended_raw_token_passed (tok : String) (vehicles : List Vehicle) (reg : Bool)
    (tr : Except String String) (wc : Except String (Option Vehicle)) :
    (wakeUpTool tok vehicles reg tr wc).2 = none
    ∨ (wakeUpTool tok vehicles reg tr wc).2 = some tok := by
  cases h : resolveVehicle tok vehicles with
  | none => simp [wakeUpTool, h]
  | some v =>
    cases tr with
    | error e => simp [wakeUpTool, TeslaService.wakeUp, h]
    | ok t =>
      cases reg with
      | false => simp [wakeUpTool, TeslaService.wakeUp, h]
      | true =>
        cases wc with
        | error m => simp [wakeUpTool, TeslaService.wakeUp, h]
        | ok r => simp [wakeUpTool, TeslaService.wakeUp, h]

/-- C8 counterexample: with an empty cache and a succeeding remote fetch,
the debug_vehicles tool makes one remote list call and replaces the cache
contents — it is not free of refreshes. -/
theorem c8_counterexample :
    (debugVehiclesTool 0 (Except.ok [sampleVehicle])
        { vehiclesCache := [], lastVehicleFetch := 0 }).2
      = ({ vehiclesCache := [sampleVehicle], lastVehicleFetch := 0 }, 1)
    ∧ ({ vehiclesCache := [sampleVehicle], lastVehicleFetch := 0 } : CacheState)
        ≠ { vehiclesCache := [], lastVehicleFetch := 0 } := by
  exact ⟨rfl, by simp⟩

/-- C8 amended: debug_vehicles reads the cache through the standard
(non-forced) freshness policy: when the cache is non-empty and fresh it
returns the cached vehicles' id, vehicle_id, VIN and state as structured
text with cache contents and fetch-instant unchanged and no remote list
call; in general its text, cache state and call count are exactly those of
a plain cache read. -/
theorem c8_amended_debug_reads_cache (now : Int) (fetch : Except String (List Vehicle))
    (s : CacheState) (hfresh : needsFetch false now s = false) :
    debugVehiclesTool now fetch s = (debugVehiclesText s.vehiclesCache, s, 0)
    ∧ (debugVehiclesTool now fetch s).1
        = debugVehiclesText (getVehicles false now fetch s).1
    ∧ (debugVehiclesTool now fetch s).2 = (getVehicles false now fetch s).2 := by
  refine ⟨?_, ?_, ?_⟩
  · simp [debugVehiclesTool, getVehicles, hfresh]
  · cases hg : getVehicles false now fetch s with
    | mk vs p => simp [debugVehiclesTool, hg]
  · cases hg : getVehicles false now fetch s with
    | mk vs p => simp [debugVehiclesTool, hg]

/-- Witness for C8 amended: fresh non-empty cache, failing fetch input —
text from the cache, state unchanged, no call. -/
theorem c8_amended_witness :
    debugVehiclesTool 30000 (Except.error "down")
        { vehiclesCache := [sampleVehicle], lastVehicleFetch := 0 }
      = (debugVehiclesText [sampleVehicle],
         { vehiclesCache := [sampleVehicle], lastVehicleFetch := 0 }, 0) :=
  (c8_amended_debug_reads_cache 30000 (Except.error "down")
      { vehiclesCache := [sampleVehicle], lastVehicleFetch := 0 } (by decide)).1

/-- C9: the list-resources operation returns exactly one descriptor per
vehicle of the cache read, each with a uri formed from the vehicle's id,
mime type application/json and the vehicle's display name (when one is
set); an empty cache whose fetch fails yields zero entries, and a
single-vehicle read yields exactly that vehicle's descriptor. -/
theorem c9_list_resources (now : Int) (fetch : Except String (List Vehicle))
    (s : CacheState) (e : String) (v : Vehicle) :
    ((listResources now fetch s).1 = ((getVehicles false now fetch s).1).map vehicleResource)
    ∧ ((listResources now fetch s).1.length = (getVehicles false now fetch s).1.length)
    ∧ ((vehicleResource v).uri = "tesla://" ++ v.id)
    ∧ ((vehicleResource v).mimeType = "application/json")
    ∧ (v.display_name ≠ "" → (vehicleResource v).name = v.display_name)
    ∧ (s.vehiclesCache = [] → fetch = Except.error e → (listResources now fetch s).1 = [])
    ∧ ((getVehicles false now fetch s).1 = [v] →
        (listResources now fetch s).1 = [vehicleResource v]) := by
  have hmap : (listResources now fetch s).1
      = ((getVehicles false now fetch s).1).map vehicleResource := by
    cases hg : getVehicles false now fetch s with
    | mk vs p => simp [listResources, hg]
  refine ⟨hmap, ?_, rfl, rfl, ?_, ?_, ?_⟩
  · rw [hmap, List.length_map]
  · intro hname
    have : (v.display_name == "") = false := by
      cases hb : v.display_name == ""
      · rfl
      · exact absurd (by simpa using hb) hname
    simp [vehicleResource, displayNameOr, this]
  · intro hemp hferr
    subst hferr
    rw [hmap]
    simp [getVehicles, needsFetch, hemp]
  · intro hone
    rw [hmap, hone]
    rfl

/-- Witness for C9: empty cache with failing fetch gives zero descriptors;
a successful one-vehicle fetch gives exactly one descriptor with uri built
from id "1" and name "Car". -/
theorem c9_witness :
    (listResources 0 (Except.error "down")
        { vehiclesCache := [], lastVehicleFetch := 0 }).1 = []
    ∧ (listResources 0 (Except.ok [sampleVehicle])
        { vehiclesCache := [], lastVehicleFetch := 0 }).1 = [vehicleResource sampleVehicle]
    ∧ (vehicleResource sampleVehicle).uri = "tesla://" ++ sampleVehicle.id
    ∧ (vehicleResource sampleVehicle).name = sampleVehicle.display_name := by
  have h1 := c9_list_resources 0 (Except.error "down")
      { vehiclesCache := [], lastVehicleFetch := 0 } "down" sampleVehicle
  have h2 := c9_list_resources 0 (Except.ok [sampleVehicle])
      { vehiclesCache := [], lastVehicleFetch := 0 } "x" sampleVehicle
  exact ⟨h1.2.2.2.2.2.1 rfl rfl, h2.2.2.2.2.2.2 (by decide), h2.2.2.1,
    h2.2.2.2.2.1 (by decide)⟩

/-- C10: when the cache read behind the list-tools operation yields zero
vehicles the advertised tool list is empty — none of wake_up,
refresh_vehicles, debug_vehicles is offered — and when the read yields at
least one vehicle exactly those three tools are advertised. -/
theorem c10_no_tools_when_empty (now : Int) (fetch : Except String (List Vehicle))
    (s : CacheState) (t : String) :
    ((getVehicles false now fetch s).1 = [] → (listTools now fetch s).1 = [])
    ∧ ((getVehicles false now fetch s).1 ≠ [] → (listTools now fetch s).1 = toolNames)
    ∧ ((getVehicles false now fetch s).1 = [] → t ∈ toolNames →
        t ∉ (listTools now fetch s).1) := by
  have hsel : ∀ vs : List Vehicle, ∀ p : CacheState × Nat,
      getVehicles false now fetch s = (vs, p) →
      (listTools now fetch s).1 = if vs.length == 0 then [] else toolNames := by
    intro vs p hg
    simp [listTools, hg]
  cases hg : getVehicles false now fetch s with
  | mk vs p =>
    have hl := hsel vs p hg
    refine ⟨?_, ?_, ?_⟩
    · intro hemp
      rw [hl]
      simp only [hg] at hemp
      simp [hemp]
    · intro hne
      rw [hl]
      simp only [hg] at hne
      cases vs with
      | nil => exact absurd rfl hne
      | cons a l => simp
    · intro hemp ht
      rw [hl]
      simp only [hg] at hemp
      simp [hemp]
  
/-- Witness for C10: an empty read advertises no tools (wake_up excluded
explicitly); a one-vehicle read advertises the three tools. -/
theorem c10_witness :
    (listTools 0 (Except.error "down") { vehiclesCache := [], lastVehicleFetch := 0 }).1 = []
    ∧ (listTools 0 (Except.ok [sampleVehicle])
        { vehiclesCache := [], lastVehicleFetch := 0 }).1 = toolNames
    ∧ "wake_up" ∉ (listTools 0 (Except.error "down")
        { vehiclesCache := [], lastVehicleFetch := 0 }).1 := by
  have h1 := c10_no_tools_when_empty 0 (Except.error "down")
      { vehiclesCache := [], lastVehicleFetch := 0 } "wake_up"
  have h2 := c10_no_tools_when_empty 0 (Except.ok [sampleVehicle])
      { vehiclesCache := [], lastVehicleFetch := 0 } "wake_up"
  exact ⟨h1.1 rfl, h2.2.1 (by decide), h1.2.2 rfl (by decide)⟩
